import Mathlib

/-!
Verification development for the flight-booking gateway (rsoi-lab-03).

The Python sources are shallowly embedded: UUIDs and wall-clock datetimes are
modelled as natural numbers, machine integers as Int (Python ints are unbounded),
HTTP collaborators as explicit stores inside a World record, and raised
exceptions as explicit error results. Definitions follow the source files
(src/app/common.py, src/app/services.py, src/app/gateway/main.py,
src/app/tickets/main.py, src/app/flights/main.py); the two modules of the
repository that are not among the provided sources (circuit_breaker.py and the
bonus service main module) are modelled from the specification, as marked in
their doc comments.
-/

namespace Rsoi

/-- Loyalty account row (common.py, class Privilege). -/
structure Privilege where
  id : Nat
  username : String
  status : String
  balance : Int
deriving DecidableEq, Repr

/-- Loyalty ledger entry (common.py, class PrivilegeHistory); the ticket UUID and
the datetime are modelled as naturals. The operation type is a string, as in the
source (FILL_IN_BALANCE or DEBIT_THE_ACCOUNT). -/
structure PrivilegeHistory where
  id : Nat
  privilege_id : Nat
  ticket_uid : Nat
  datetime : Nat
  balance_diff : Int
  operation_type : String
deriving DecidableEq, Repr

/-- Ticket row (common.py, class Ticket / tickets per main.py TicketDb). -/
structure Ticket where
  id : Nat
  ticket_uid : Nat
  username : String
  flight_number : String
  price : Int
  status : String
deriving DecidableEq, Repr

/-- Flight as served by the flights collaborator (common.py, class FlightResponse). -/
structure FlightResponse where
  flightNumber : String
  fromAirport : String
  toAirport : String
  date : Nat
  price : Int
deriving DecidableEq, Repr

/-- Body of POST privilege history (common.py, class AddTransactionRequest). -/
structure AddTransactionRequest where
  privilege_id : Nat
  ticket_uid : Nat
  datetime : Nat
  balance_diff : Int
  operation_type : String
deriving DecidableEq, Repr

/-- Loyalty summary inside responses (common.py, class PrivilegeShortInfo). -/
structure PrivilegeShortInfo where
  balance : Int
  status : String
deriving DecidableEq, Repr

/-- Purchase response of the gateway (common.py, class TicketPurchaseResponse). -/
structure TicketPurchaseResponse where
  ticketUid : Nat
  flightNumber : String
  fromAirport : String
  toAirport : String
  date : Nat
  price : Int
  paidByMoney : Int
  paidByBonuses : Int
  status : String
  privilege : PrivilegeShortInfo
deriving DecidableEq, Repr

/-- Ticket view returned by the gateway (common.py, class TicketResponse). -/
structure TicketResponse where
  ticketUid : Nat
  flightNumber : String
  fromAirport : String
  toAirport : String
  date : Nat
  price : Int
  status : String
deriving DecidableEq, Repr

/-- Circuit breaker states (spec, section 4.1). -/
inductive CBState where
  | CLOSED
  | OPEN
  | HALF_OPEN
deriving DecidableEq, Repr

/-- Modelled from the spec: the CircuitBreaker class lives in circuit_breaker.py,
which is not among the provided sources (services.py and the gateway only import
it); its fields follow spec section 3 (CircuitBreakerState). -/
structure CircuitBreaker where
  service_name : String
  state : CBState
  failure_count : Nat
  last_failure_timestamp : Nat
  failure_threshold : Nat
  recovery_timeout : Nat
deriving DecidableEq, Repr

/-- Result of one breaker-protected call: the operation value, a downstream
failure of the attempted operation, or an immediate CircuitOpenFault. -/
inductive CBCallResult (α : Type) where
  | ok (value : α)
  | opFailed
  | circuitOpen (service : String)
deriving DecidableEq, Repr

/-- Modelled from the spec: call semantics of CircuitBreaker.call (spec section
4.1), the class itself being absent from the provided sources. The operation is
passed as its would-be outcome (some value on success, none on failure); the
result records the call outcome, whether a network attempt was performed, and
the successor breaker state. In CLOSED the operation runs: success resets the
failure count, failure increments it and trips the breaker to OPEN once the
threshold is reached. In OPEN the call fails immediately with no attempt unless
the recovery timeout has elapsed, in which case the call is attempted as the
HALF_OPEN trial. A trial success yields CLOSED with the failure count reset; a
trial failure yields OPEN with the failure timestamp reset to now. -/
def CircuitBreaker.call {α : Type} (cb : CircuitBreaker) (now : Nat) (op : Option α) :
    CBCallResult α × Bool × CircuitBreaker :=
  match cb.state with
  | CBState.CLOSED =>
    match op with
    | some v => (CBCallResult.ok v, true, { cb with failure_count := 0 })
    | none =>
      let fc := cb.failure_count + 1
      if cb.failure_threshold ≤ fc then
        (CBCallResult.opFailed, true,
          { cb with
              state := CBState.OPEN,
              failure_count := fc,
              last_failure_timestamp := now })
      else
        (CBCallResult.opFailed, true, { cb with failure_count := fc })
  | CBState.OPEN =>
    if cb.recovery_timeout ≤ now - cb.last_failure_timestamp then
      match op with
      | some v =>
        (CBCallResult.ok v, true, { cb with state := CBState.CLOSED, failure_count := 0 })
      | none =>
        (CBCallResult.opFailed, true,
          { cb with
              state := CBState.OPEN,
              last_failure_timestamp := now })
    else
      (CBCallResult.circuitOpen cb.service_name, false, cb)
  | CBState.HALF_OPEN =>
    match op with
    | some v =>
      (CBCallResult.ok v, true, { cb with state := CBState.CLOSED, failure_count := 0 })
    | none =>
      (CBCallResult.opFailed, true,
        { cb with
            state := CBState.OPEN,
            last_failure_timestamp := now })

/-- Breaker instance created by the wrap_cb decorator (services.py lines 7-18):
CircuitBreaker(service, failure_threshold=1, recovery_timeout=1); a fresh
breaker starts CLOSED with no recorded failures (spec section 3). -/
def wrap_cb (service : String) : CircuitBreaker :=
  ⟨service, CBState.CLOSED, 0, 0, 1, 1⟩

/-- C2: circuit breaker state machine under the deployed policy
failure_threshold = 1 and recovery_timeout = 1 (the policy wrap_cb instantiates
for every breaker-guarded read). A first failed call in CLOSED trips the breaker
to OPEN with the failure timestamp set to now; a call while OPEN before the
recovery timeout has elapsed fails immediately with CircuitOpenFault, performs
no network attempt and leaves the breaker unchanged; a call after the timeout
has elapsed is attempted as the HALF_OPEN trial, success yielding CLOSED with
failure_count = 0 and failure yielding OPEN with the timer reset to now. -/
theorem C2_breaker_policy {α : Type} :
    (∀ s, (wrap_cb s).failure_threshold = 1 ∧ (wrap_cb s).recovery_timeout = 1 ∧
      (wrap_cb s).state = CBState.CLOSED) ∧
    (∀ (cb : CircuitBreaker) (now : Nat), cb.state = CBState.CLOSED →
      cb.failure_threshold = 1 →
      cb.call now (none : Option α) =
        (CBCallResult.opFailed, true,
          { cb with
              state := CBState.OPEN,
              failure_count := cb.failure_count + 1,
              last_failure_timestamp := now })) ∧
    (∀ (cb : CircuitBreaker) (now : Nat) (op : Option α), cb.state = CBState.OPEN →
      now - cb.last_failure_timestamp < cb.recovery_timeout →
      cb.call now op = (CBCallResult.circuitOpen cb.service_name, false, cb)) ∧
    (∀ (cb : CircuitBreaker) (now : Nat) (op : Option α), cb.state = CBState.OPEN →
      cb.recovery_timeout ≤ now - cb.last_failure_timestamp →
      (cb.call now op).2.1 = true ∧
      (∀ v, op = some v → cb.call now op =
        (CBCallResult.ok v, true, { cb with state := CBState.CLOSED, failure_count := 0 })) ∧
      (op = none → cb.call now op =
        (CBCallResult.opFailed, true,
          { cb with
              state := CBState.OPEN,
              last_failure_timestamp := now }))) := by
  refine ⟨fun s => ⟨rfl, rfl, rfl⟩, ?_, ?_, ?_⟩
  · intro cb now hs ht
    simp [CircuitBreaker.call, hs, ht]
  · intro cb now op hs hlt
    simp [CircuitBreaker.call, hs, Nat.not_le.mpr hlt]
  · intro cb now op hs hle
    refine ⟨?_, ?_, ?_⟩
    · cases op <;> simp [CircuitBreaker.call, hs, hle]
    · intro v hv; subst hv; simp [CircuitBreaker.call, hs, hle]
    · intro hv; subst hv; simp [CircuitBreaker.call, hs, hle]

/-- Witness for C2: the Bonus Service breaker, fresh from wrap_cb, trips from
CLOSED to OPEN on its first failed call at time 5. -/
theorem C2_breaker_policy_witness :
    (wrap_cb "Bonus Service").call 5 (none : Option Unit) =
      (CBCallResult.opFailed, true,
        { wrap_cb "Bonus Service" with
            state := CBState.OPEN,
            failure_count := (wrap_cb "Bonus Service").failure_count + 1,
            last_failure_timestamp := 5 }) :=
  (@C2_breaker_policy Unit).2.1 (wrap_cb "Bonus Service") 5 rfl rfl

/-- HTTP response of a collaborator as seen by a client method: the status code
and the parsed body (meaningful for 2xx responses). -/
structure HttpResponse (α : Type) where
  status_code : Nat
  body : α
deriving DecidableEq, Repr

/-- Outcome of a client method after response handling: a value, or the
HTTPError raised by response.raise_for_status on a 4xx or 5xx status. -/
inductive DownstreamResult (α : Type) where
  | ok (value : α)
  | httpError (status : Nat)
deriving DecidableEq, Repr

/-- Response handling of FlightsService.get_flight_by_number (services.py lines
43-47): raise_for_status is called with no 404 check, so every 4xx or 5xx
status, 404 included, raises. -/
def get_flight_by_number_handle (r : HttpResponse FlightResponse) :
    DownstreamResult FlightResponse :=
  if 400 ≤ r.status_code then DownstreamResult.httpError r.status_code
  else DownstreamResult.ok r.body

/-- Response handling of TicketsService.get_ticket_by_uid (services.py lines
82-88): a 404 status returns None; any other 4xx or 5xx raises. -/
def get_ticket_by_uid_handle (r : HttpResponse Ticket) :
    DownstreamResult (Option Ticket) :=
  if r.status_code = 404 then DownstreamResult.ok none
  else if 400 ≤ r.status_code then DownstreamResult.httpError r.status_code
  else DownstreamResult.ok (some r.body)

/-- Response handling of PrivilegesService.get_user_privilege (services.py lines
122-128): a 404 status returns None; any other 4xx or 5xx raises. -/
def get_user_privilege_handle (r : HttpResponse Privilege) :
    DownstreamResult (Option Privilege) :=
  if r.status_code = 404 then DownstreamResult.ok none
  else if 400 ≤ r.status_code then DownstreamResult.httpError r.status_code
  else DownstreamResult.ok (some r.body)

/-- Response handling of PrivilegesService.get_user_privilege_transaction
(services.py lines 136-142): a 404 status returns None; any other 4xx or 5xx
raises. -/
def get_user_privilege_transaction_handle (r : HttpResponse PrivilegeHistory) :
    DownstreamResult (Option PrivilegeHistory) :=
  if r.status_code = 404 then DownstreamResult.ok none
  else if 400 ≤ r.status_code then DownstreamResult.httpError r.status_code
  else DownstreamResult.ok (some r.body)

/-- C3 counterexample evidence: on a 404 collaborator response, ticket-by-uid,
account-by-username and ledger-entry-by-uid all return an explicit not-found
result, but flight-by-number raises an HTTPError instead of returning a
not-found result, contradicting the claim that every lookup-style call maps 404
to not-found and never raises. -/
theorem C3_flight_404_raises (b1 : FlightResponse) (b2 : Ticket) (b3 : Privilege)
    (b4 : PrivilegeHistory) :
    get_flight_by_number_handle ⟨404, b1⟩ = DownstreamResult.httpError 404 ∧
    get_ticket_by_uid_handle ⟨404, b2⟩ = DownstreamResult.ok none ∧
    get_user_privilege_handle ⟨404, b3⟩ = DownstreamResult.ok none ∧
    get_user_privilege_transaction_handle ⟨404, b4⟩ = DownstreamResult.ok none := by
  refine ⟨?_, rfl, rfl, rfl⟩
  simp [get_flight_by_number_handle]

/-- Client operations exposed by the three service classes of services.py. -/
inductive ClientOp where
  | get_all_flights
  | get_flight_by_number
  | get_user_tickets
  | get_ticket_by_uid
  | get_user_privilege
  | get_user_privilege_history
  | get_user_privilege_transaction
  | remove_ticket
  | create_new_ticket
  | add_privilege_transaction
  | revert_transaction
deriving DecidableEq, Repr

/-- Whether the operation mutates collaborator state: create ticket, delete
ticket, append ledger entry, delete ledger entry. -/
def ClientOp.isWrite : ClientOp → Bool
  | ClientOp.remove_ticket => true
  | ClientOp.create_new_ticket => true
  | ClientOp.add_privilege_transaction => true
  | ClientOp.revert_transaction => true
  | _ => false

/-- Whether services.py decorates the method with @wrap_cb: exactly the
list/get methods carry the decorator; remove_ticket, create_new_ticket,
add_privilege_transaction and revert_transaction call requests directly. -/
def ClientOp.breakerGuarded : ClientOp → Bool
  | ClientOp.get_all_flights => true
  | ClientOp.get_flight_by_number => true
  | ClientOp.get_user_tickets => true
  | ClientOp.get_ticket_by_uid => true
  | ClientOp.get_user_privilege => true
  | ClientOp.get_user_privilege_history => true
  | ClientOp.get_user_privilege_transaction => true
  | ClientOp.remove_ticket => false
  | ClientOp.create_new_ticket => false
  | ClientOp.add_privilege_transaction => false
  | ClientOp.revert_transaction => false

/-- Invocation of a client operation: a guarded method runs through its
breaker of its service (the wrapper installed by wrap_cb); an unguarded method
performs the network call directly, its outcome untouched by any breaker. -/
def invokeClientOp {α : Type} (op : ClientOp) (cb : CircuitBreaker) (now : Nat)
    (net : Option α) : CBCallResult α × Bool × CircuitBreaker :=
  if op.breakerGuarded then cb.call now net
  else
    match net with
    | some v => (CBCallResult.ok v, true, cb)
    | none => (CBCallResult.opFailed, true, cb)

/-- C6: breaker asymmetry. Every read (list/get) operation of the three clients
is breaker-guarded, and with its breaker open it fails with CircuitOpenFault
without a network attempt; every write operation carries no breaker, so it is
always attempted and never yields CircuitOpenFault, whatever the breaker state
of its collaborator. -/
theorem C6_breaker_asymmetry {α : Type} :
    (∀ op : ClientOp, op.breakerGuarded = !op.isWrite) ∧
    (∀ (op : ClientOp) (cb : CircuitBreaker) (now : Nat) (net : Option α),
      op.isWrite = true →
        (invokeClientOp op cb now net).2.1 = true ∧
        ∀ s, (invokeClientOp op cb now net).1 ≠ CBCallResult.circuitOpen s) ∧
    (∀ (op : ClientOp) (net : Option α) (srv : String), op.isWrite = false →
      invokeClientOp op ⟨srv, CBState.OPEN, 1, 5, 1, 1⟩ 5 net =
        (CBCallResult.circuitOpen srv, false, ⟨srv, CBState.OPEN, 1, 5, 1, 1⟩)) := by
  refine ⟨?_, ?_, ?_⟩
  · intro op; cases op <;> rfl
  · intro op cb now net hw
    cases op <;> simp_all [invokeClientOp, ClientOp.breakerGuarded, ClientOp.isWrite] <;>
      cases net <;> simp
  · intro op net srv hr
    cases op <;> simp_all [invokeClientOp, ClientOp.breakerGuarded, ClientOp.isWrite,
      CircuitBreaker.call]

/-- Witness for C6: with the Ticket Service breaker open, create_new_ticket is
still attempted and its outcome is not CircuitOpenFault, while the guarded read
get_ticket_by_uid short-circuits. -/
theorem C6_breaker_asymmetry_witness :
    ((invokeClientOp ClientOp.create_new_ticket ⟨"Ticket Service", CBState.OPEN, 1, 5, 1, 1⟩ 5
        (some ())).2.1 = true ∧
      ∀ s, (invokeClientOp ClientOp.create_new_ticket ⟨"Ticket Service", CBState.OPEN, 1, 5, 1, 1⟩ 5
        (some ())).1 ≠ CBCallResult.circuitOpen s) ∧
    invokeClientOp ClientOp.get_ticket_by_uid ⟨"Ticket Service", CBState.OPEN, 1, 5, 1, 1⟩ 5
        (some ()) =
      (CBCallResult.circuitOpen "Ticket Service", false,
        ⟨"Ticket Service", CBState.OPEN, 1, 5, 1, 1⟩) :=
  ⟨(@C6_breaker_asymmetry Unit).2.1 ClientOp.create_new_ticket
      ⟨"Ticket Service", CBState.OPEN, 1, 5, 1, 1⟩ 5 (some ()) rfl,
    (@C6_breaker_asymmetry Unit).2.2 ClientOp.get_ticket_by_uid (some ()) "Ticket Service" rfl⟩

/-- Combined state of the three collaborators the gateway orchestrates: the
flight catalog, the tickets store and the loyalty store (accounts plus ledger). -/
structure World where
  flights : List FlightResponse
  tickets : List Ticket
  privileges : List Privilege
  ledger : List PrivilegeHistory
deriving DecidableEq, Repr

/-- Flight lookup of the flights collaborator (flights/main.py
get_flight_by_number): the first row with the given flight number, none
standing for its 404. -/
def flightsLookup (w : World) (flightNumber : String) : Option FlightResponse :=
  w.flights.find? (fun f => f.flightNumber == flightNumber)

/-- Account lookup of the bonus collaborator, GET privilege by username: the
first account with the given username, none standing for its 404. The bonus
service main module is not among the provided sources; this lookup follows the
spec (one account per username) and bonus/test.py. -/
def privilegeLookup (w : World) (username : String) : Option Privilege :=
  w.privileges.find? (fun p => p.username == username)

/-- Next autoincrement identifier for a ledger row. -/
def nextLedgerId (w : World) : Nat :=
  w.ledger.foldl (fun m e => max m e.id) 0 + 1

/-- Balance effect of a ledger operation (spec section 3): FILL_IN_BALANCE
increases the balance by the diff, DEBIT_THE_ACCOUNT decreases it. -/
def applyDiff (balance : Int) (operation : String) (diff : Int) : Int :=
  if operation == "FILL_IN_BALANCE" then balance + diff else balance - diff

/-- Reverse balance effect used when a ledger entry is deleted, restoring the
invariant that the balance equals the opening balance plus the signed sum of the
still-present entries (spec section 3). -/
def reverseDiff (balance : Int) (operation : String) (diff : Int) : Int :=
  if operation == "FILL_IN_BALANCE" then balance - diff else balance + diff

/-- Modelled from the spec: POST privilege history of the bonus collaborator,
whose main module is not among the provided sources. Per spec section 3 and
bonus/test.py, the entry is appended to the ledger and the account balance is
adjusted by the signed diff; an unknown username or an unknown operation type is
rejected (none stands for the non-2xx response that raise_for_status turns into
an HTTPError at the caller). -/
def bonusAddTransaction (w : World) (username : String) (req : AddTransactionRequest) :
    Option World :=
  match privilegeLookup w username with
  | none => none
  | some acc =>
    if req.operation_type == "FILL_IN_BALANCE" || req.operation_type == "DEBIT_THE_ACCOUNT" then
      some { w with
        ledger := w.ledger ++
          [⟨nextLedgerId w, req.privilege_id, req.ticket_uid, req.datetime,
            req.balance_diff, req.operation_type⟩],
        privileges := w.privileges.map (fun p =>
          if p.id == acc.id then
            { p with balance := applyDiff p.balance req.operation_type req.balance_diff }
          else p) }
    else none

/-- Modelled from the spec: GET privilege history entry by ticket uid of the
bonus collaborator (the ledger-entry-by-uid lookup), whose main module is not
among the provided sources. It resolves the account by username and returns the
first ledger entry of that account carrying the ticket uid, none standing for
its 404 (bonus/test.py exercises exactly this behavior). -/
def bonusGetTransaction (w : World) (username : String) (ticket_uid : Nat) :
    Option PrivilegeHistory :=
  match privilegeLookup w username with
  | none => none
  | some acc =>
    w.ledger.find? (fun e => e.privilege_id == acc.id && e.ticket_uid == ticket_uid)

/-- Modelled from the spec: DELETE privilege history entry by ticket uid of the
bonus collaborator, whose main module is not among the provided sources. The one
matching entry is removed and its balance effect reversed (spec section 3:
deleting the entry tied to a ticket restores the pre-purchase balance); none
stands for its 404 when the account or the entry is absent. -/
def bonusDeleteTransaction (w : World) (username : String) (ticket_uid : Nat) :
    Option World :=
  match privilegeLookup w username with
  | none => none
  | some acc =>
    match w.ledger.find? (fun e => e.privilege_id == acc.id && e.ticket_uid == ticket_uid) with
    | none => none
    | some e =>
      some { w with
        ledger := w.ledger.eraseP (fun x => x.privilege_id == acc.id && x.ticket_uid == ticket_uid),
        privileges := w.privileges.map (fun p =>
          if p.id == acc.id then
            { p with balance := reverseDiff p.balance e.operation_type e.balance_diff }
          else p) }

/-- Ticket lookup of the tickets collaborator (tickets/main.py
get_ticket_details): the first row with the given uid, none standing for its
404. -/
def ticketsGetByUid (w : World) (ticket_uid : Nat) : Option Ticket :=
  w.tickets.find? (fun t => t.ticket_uid == ticket_uid)

/-- Next autoincrement identifier for a ticket row. -/
def nextTicketId (store : List Ticket) : Nat :=
  store.foldl (fun m t => max m t.id) 0 + 1

/-- POST /tickets of the tickets collaborator (tickets/main.py create_new_ticket,
lines 108-133): if a ticket with the same uid already exists the request fails
with status 403 and the store is untouched; otherwise the ticket is inserted
with status PAID. The result pairs the error status (none on success) with the
resulting store. -/
def tickets_create (store : List Ticket) (ticket_uid : Nat) (username flightNumber : String)
    (price : Int) : Option Nat × List Ticket :=
  match store.find? (fun t => t.ticket_uid == ticket_uid) with
  | some _ => (some 403, store)
  | none =>
    (none, store ++ [⟨nextTicketId store, ticket_uid, username, flightNumber, price, "PAID"⟩])

/-- DELETE /tickets of the tickets collaborator (tickets/main.py remove_ticket,
lines 136-151): the first row with the given uid is deleted; an absent uid fails
with status 404. -/
def tickets_remove (store : List Ticket) (ticket_uid : Nat) : Option Nat × List Ticket :=
  match store.find? (fun t => t.ticket_uid == ticket_uid) with
  | none => (some 404, store)
  | some _ => (none, store.eraseP (fun t => t.ticket_uid == ticket_uid))

/-- C7: creating a ticket whose uid already exists in the tickets store fails
with ForbiddenFault (status 403) and leaves the store exactly as it was. -/
theorem C7_duplicate_ticket_forbidden (store : List Ticket) (ticket_uid : Nat)
    (username flightNumber : String) (price : Int) (t : Ticket)
    (h : store.find? (fun t2 => t2.ticket_uid == ticket_uid) = some t) :
    tickets_create store ticket_uid username flightNumber price = (some 403, store) := by
  simp [tickets_create, h]

/-- Witness for C7: creating a second ticket with uid 77 fails with 403 and the
store keeps its single original row. -/
theorem C7_duplicate_ticket_forbidden_witness :
    tickets_create [⟨1, 77, "alice", "AFL031", 1500, "PAID"⟩] 77 "bob" "AFL031" 900 =
      (some 403, [⟨1, 77, "alice", "AFL031", 1500, "PAID"⟩]) :=
  C7_duplicate_ticket_forbidden [⟨1, 77, "alice", "AFL031", 1500, "PAID"⟩] 77 "bob" "AFL031"
    900 ⟨1, 77, "alice", "AFL031", 1500, "PAID"⟩ (by decide)

/-- Saga-visible collaborator interactions, in the order the gateway issues
them: a completed ledger append, the account re-read, the ticket-create call,
a completed ledger delete, and the ticket-delete call. -/
inductive SagaEvent where
  | ledgerAppend (username : String) (req : AddTransactionRequest)
  | privilegeReread (username : String)
  | ticketCreate (ticketUid : Nat) (username flightNumber : String) (price : Int)
  | ledgerDelete (username : String) (ticketUid : Nat)
  | ticketDelete (ticketUid : Nat)
deriving DecidableEq, Repr

/-- Recognizer for completed ledger appends in a saga trace. -/
def isLedgerAppendEv : SagaEvent → Bool
  | SagaEvent.ledgerAppend _ _ => true
  | _ => false

/-- Recognizer for ticket-create calls in a saga trace. -/
def isTicketCreateEv : SagaEvent → Bool
  | SagaEvent.ticketCreate _ _ _ _ => true
  | _ => false

/-- Recognizer for ledger deletes in a saga trace. -/
def isLedgerDeleteEv : SagaEvent → Bool
  | SagaEvent.ledgerDelete _ _ => true
  | _ => false

/-- Outcome of the purchase endpoint: the consolidated response, a structured
validation error, a downstream HTTPError propagated out of the handler, or the
crash the handler would hit reading an attribute of None. -/
inductive PurchaseOutcome where
  | ok (resp : TicketPurchaseResponse)
  | validationError (message : String)
  | downstreamError (status : Nat)
  | internalError
deriving DecidableEq, Repr

/-- Payment split and ledger write of the purchase saga (gateway/main.py lines
186-215): paying from balance takes bonus_payment = min(balance, price) and
cash_payment = price - bonus_payment, appending a DEBIT_THE_ACCOUNT entry of
bonus_payment when it is positive; otherwise cash_payment = price,
bonus_payment = 0 and a FILL_IN_BALANCE entry of cash_payment // 10 is
appended. Returns cash, bonus, the world after the ledger write and the trace,
or none when the append raised. -/
def purchaseStep3 (w : World) (flight_info : FlightResponse) (user_privilege : Privilege)
    (paidFromBalance : Bool) (username : String) (now newTicketUid : Nat) :
    Option (Int × Int × World × List SagaEvent) :=
  if paidFromBalance then
    let bonus_payment := min user_privilege.balance flight_info.price
    let cash_payment := flight_info.price - bonus_payment
    if bonus_payment > 0 then
      let req : AddTransactionRequest :=
        ⟨user_privilege.id, newTicketUid, now, bonus_payment, "DEBIT_THE_ACCOUNT"⟩
      match bonusAddTransaction w username req with
      | none => none
      | some w1 => some (cash_payment, bonus_payment, w1, [SagaEvent.ledgerAppend username req])
    else
      some (cash_payment, bonus_payment, w, [])
  else
    let cash_payment := flight_info.price
    let req : AddTransactionRequest :=
      ⟨user_privilege.id, newTicketUid, now, Int.fdiv cash_payment 10, "FILL_IN_BALANCE"⟩
    match bonusAddTransaction w username req with
    | none => none
    | some w1 => some (cash_payment, 0, w1, [SagaEvent.ledgerAppend username req])

/-- Gateway purchase saga (gateway/main.py purchase_ticket, lines 164-236) over
the World, with its breaker-guarded reads taken under closed breakers and
reachable collaborators. reqPrice is the caller-supplied price field of the
request body; now models datetime.now() and newTicketUid models uuid.uuid4().
A flight number the catalog lacks raises out of get_flight_by_number (404 with
no not-found mapping, services.py lines 43-47), so the validation branch
guarding it is unreachable; an absent account yields the validation error.
After the ledger write the account is re-read, the ticket is created (status
PAID, the cash price), and the consolidated response is assembled. -/
def purchase_ticket (w : World) (flightNumber : String) (reqPrice : Int)
    (paidFromBalance : Bool) (username : String) (now newTicketUid : Nat) :
    PurchaseOutcome × World × List SagaEvent :=
  match flightsLookup w flightNumber with
  | none => (PurchaseOutcome.downstreamError 404, w, [])
  | some flight_info =>
    match privilegeLookup w username with
    | none => (PurchaseOutcome.validationError "User does not exist", w, [])
    | some user_privilege =>
      match purchaseStep3 w flight_info user_privilege paidFromBalance username now newTicketUid with
      | none => (PurchaseOutcome.downstreamError 500, w, [])
      | some (cash_payment, bonus_payment, w1, evs) =>
        let evs1 := evs ++ [SagaEvent.privilegeReread username]
        match privilegeLookup w1 username with
        | none => (PurchaseOutcome.internalError, w1, evs1)
        | some updated_privilege =>
          let evs2 := evs1 ++
            [SagaEvent.ticketCreate newTicketUid username flight_info.flightNumber cash_payment]
          match tickets_create w1.tickets newTicketUid username flight_info.flightNumber
              cash_payment with
          | (some status, store1) =>
            (PurchaseOutcome.downstreamError status, { w1 with tickets := store1 }, evs2)
          | (none, store1) =>
            (PurchaseOutcome.ok
              ⟨newTicketUid, flightNumber, flight_info.fromAirport, flight_info.toAirport,
                now, flight_info.price, cash_payment, bonus_payment, "PAID",
                ⟨updated_privilege.balance, updated_privilege.status⟩⟩,
              { w1 with tickets := store1 }, evs2)

/-- C10: the caller-supplied price field of the purchase request body has no
effect on the purchase saga. Two requests identical except in that field yield
the same outcome, the same collaborator state and the same trace; the split is
computed from the catalog price alone. -/
theorem C10_request_price_ignored (w : World) (flightNumber : String) (p1 p2 : Int)
    (paidFromBalance : Bool) (username : String) (now newTicketUid : Nat) :
    purchase_ticket w flightNumber p1 paidFromBalance username now newTicketUid =
      purchase_ticket w flightNumber p2 paidFromBalance username now newTicketUid := rfl

/-- Account lookup still succeeds after the bonus collaborator adjusts one
balance of one account, the adjusted account being returned for the same username. -/
theorem privilegeLookup_after_adjust (w : World) (u : String) (acc : Privilege)
    (L : List PrivilegeHistory) (adj : Int → Int)
    (ha : privilegeLookup w u = some acc) :
    privilegeLookup
      { w with
          ledger := L,
          privileges := w.privileges.map (fun p =>
            if p.id == acc.id then { p with balance := adj p.balance } else p) } u =
      some { acc with balance := adj acc.balance } := by
  unfold privilegeLookup at ha ⊢
  simp only
  rw [List.find?_map]
  have hpred : ((fun p : Privilege => p.username == u) ∘ fun p =>
      if p.id == acc.id then { p with balance := adj p.balance } else p) =
      (fun p : Privilege => p.username == u) := by
    funext p
    by_cases h : p.id == acc.id <;> simp [Function.comp, h]
  rw [hpred, ha]
  simp

/-- C1: purchase payment split. With the flight and the account resolved, paying
from balance gives bonus_payment = min(balance, price) and cash_payment =
price - bonus_payment, and the ledger gains one DEBIT_THE_ACCOUNT entry of
bonus_payment tagged with the fresh ticket uid exactly when bonus_payment is
positive; not paying from balance gives cash_payment = price, bonus_payment = 0,
and the ledger gains exactly one FILL_IN_BALANCE entry of cash_payment // 10
tagged with the fresh ticket uid. -/
theorem C1_purchase_payment_split (w : World) (fn : String) (reqPrice : Int) (b : Bool)
    (u : String) (now uid : Nat) (f : FlightResponse) (acc : Privilege)
    (hf : flightsLookup w fn = some f) (ha : privilegeLookup w u = some acc) :
    (b = true →
      (∀ resp, (purchase_ticket w fn reqPrice b u now uid).1 = PurchaseOutcome.ok resp →
        resp.paidByBonuses = min acc.balance f.price ∧
        resp.paidByMoney = f.price - min acc.balance f.price) ∧
      (0 < min acc.balance f.price →
        (purchase_ticket w fn reqPrice b u now uid).2.1.ledger =
          w.ledger ++ [⟨nextLedgerId w, acc.id, uid, now, min acc.balance f.price,
            "DEBIT_THE_ACCOUNT"⟩]) ∧
      (min acc.balance f.price ≤ 0 →
        (purchase_ticket w fn reqPrice b u now uid).2.1.ledger = w.ledger)) ∧
    (b = false →
      (∀ resp, (purchase_ticket w fn reqPrice b u now uid).1 = PurchaseOutcome.ok resp →
        resp.paidByMoney = f.price ∧ resp.paidByBonuses = 0) ∧
      (purchase_ticket w fn reqPrice b u now uid).2.1.ledger =
        w.ledger ++ [⟨nextLedgerId w, acc.id, uid, now, Int.fdiv f.price 10,
          "FILL_IN_BALANCE"⟩]) := by
  constructor
  · rintro rfl
    by_cases hb : 0 < min acc.balance f.price
    · have hadd : bonusAddTransaction w u
          ⟨acc.id, uid, now, min acc.balance f.price, "DEBIT_THE_ACCOUNT"⟩ =
          some { w with
            ledger := w.ledger ++ [⟨nextLedgerId w, acc.id, uid, now,
              min acc.balance f.price, "DEBIT_THE_ACCOUNT"⟩],
            privileges := w.privileges.map (fun p =>
              if p.id == acc.id then
                { p with balance := (applyDiff p.balance "DEBIT_THE_ACCOUNT" (min acc.balance f.price)) }
              else p) } := by
        simp [bonusAddTransaction, ha]
      have hre := privilegeLookup_after_adjust w u acc
        (w.ledger ++ [⟨nextLedgerId w, acc.id, uid, now, min acc.balance f.price,
          "DEBIT_THE_ACCOUNT"⟩])
        (fun x => applyDiff x "DEBIT_THE_ACCOUNT" (min acc.balance f.price)) ha
      simp at hre
      rcases hc : tickets_create w.tickets uid u f.flightNumber
          (f.price - min acc.balance f.price) with ⟨st, store1⟩
      refine ⟨fun resp hresp => ?_, fun _ => ?_, fun hle => absurd hb (not_lt.mpr hle)⟩
      · rcases st with _ | status
        · simp [purchase_ticket, purchaseStep3, hf, ha, hadd, hre, hc, hb] at hresp
          subst hresp
          exact ⟨rfl, rfl⟩
        · simp [purchase_ticket, purchaseStep3, hf, ha, hadd, hre, hc, hb] at hresp
      · rcases st with _ | status <;>
          simp [purchase_ticket, purchaseStep3, hf, ha, hadd, hre, hc, hb]
    · rcases hc : tickets_create w.tickets uid u f.flightNumber
          (f.price - min acc.balance f.price) with ⟨st, store1⟩
      refine ⟨fun resp hresp => ?_, fun hpos => absurd hpos hb, fun _ => ?_⟩
      · rcases st with _ | status
        · simp [purchase_ticket, purchaseStep3, hf, ha, hc, hb] at hresp
          subst hresp
          exact ⟨rfl, rfl⟩
        · simp [purchase_ticket, purchaseStep3, hf, ha, hc, hb] at hresp
      · rcases st with _ | status <;>
          simp [purchase_ticket, purchaseStep3, hf, ha, hc, hb]
  · rintro rfl
    have hadd : bonusAddTransaction w u
        ⟨acc.id, uid, now, Int.fdiv f.price 10, "FILL_IN_BALANCE"⟩ =
        some { w with
          ledger := w.ledger ++ [⟨nextLedgerId w, acc.id, uid, now,
            Int.fdiv f.price 10, "FILL_IN_BALANCE"⟩],
          privileges := w.privileges.map (fun p =>
            if p.id == acc.id then
              { p with balance := applyDiff p.balance "FILL_IN_BALANCE" (Int.fdiv f.price 10) }
            else p) } := by
      simp [bonusAddTransaction, ha]
    have hre := privilegeLookup_after_adjust w u acc
      (w.ledger ++ [⟨nextLedgerId w, acc.id, uid, now, Int.fdiv f.price 10,
        "FILL_IN_BALANCE"⟩])
      (fun x => applyDiff x "FILL_IN_BALANCE" (Int.fdiv f.price 10)) ha
    simp at hre
    rcases hc : tickets_create w.tickets uid u f.flightNumber f.price with ⟨st, store1⟩
    refine ⟨fun resp hresp => ?_, ?_⟩
    · rcases st with _ | status
      · simp [purchase_ticket, purchaseStep3, hf, ha, hadd, hre, hc] at hresp
        subst hresp
        exact ⟨rfl, rfl⟩
      · simp [purchase_ticket, purchaseStep3, hf, ha, hadd, hre, hc] at hresp
    · rcases st with _ | status <;>
        simp [purchase_ticket, purchaseStep3, hf, ha, hadd, hre, hc]

/-- Witness for C1: buying flight AFL031 (price 1500) without paying from
balance appends the single FILL_IN_BALANCE ledger entry of 1500 // 10 = 150
tagged with the fresh ticket uid 77. -/
theorem C1_purchase_payment_split_witness :
    (purchase_ticket ⟨[⟨"AFL031", "SVO", "LED", 100, 1500⟩], [],
        [⟨1, "alice", "GOLD", 500⟩], []⟩ "AFL031" 0 false "alice" 10 77).2.1.ledger =
      ([] : List PrivilegeHistory) ++ [⟨1, 1, 77, 10, Int.fdiv 1500 10, "FILL_IN_BALANCE"⟩] := by
  have h := C1_purchase_payment_split
    ⟨[⟨"AFL031", "SVO", "LED", 100, 1500⟩], [], [⟨1, "alice", "GOLD", 500⟩], []⟩
    "AFL031" 0 false "alice" 10 77 ⟨"AFL031", "SVO", "LED", 100, 1500⟩
    ⟨1, "alice", "GOLD", 500⟩ (by decide) (by decide)
  exact (h.2 rfl).2

/-- Index of the first event satisfying the recognizer, if any. -/
def firstIdxOf (p : SagaEvent → Bool) : List SagaEvent → Option Nat
  | [] => none
  | e :: es => if p e then some 0 else (firstIdxOf p es).map (fun n => n + 1)

/-- A successful ledger append extends the ledger by exactly one entry at the
end. -/
theorem bonusAddTransaction_ledger (w : World) (u : String) (req : AddTransactionRequest)
    (w1 : World) (h : bonusAddTransaction w u req = some w1) :
    ∃ e, w1.ledger = w.ledger ++ [e] := by
  unfold bonusAddTransaction at h
  rcases hpl : privilegeLookup w u with _ | acc
  · simp only [hpl] at h
    exact Option.noConfusion h
  · simp only [hpl] at h
    by_cases hop : (req.operation_type == "FILL_IN_BALANCE" ||
        req.operation_type == "DEBIT_THE_ACCOUNT") = true
    · rw [if_pos hop] at h
      injection h with h
      subst h
      exact ⟨_, rfl⟩
    · rw [if_neg hop] at h
      exact Option.noConfusion h

/-- Shape of the payment-split step: it raises, appends nothing, or appends
exactly one entry while emitting the single ledgerAppend event. -/
theorem purchaseStep3_shape (w : World) (f : FlightResponse) (acc : Privilege) (b : Bool)
    (u : String) (now uid : Nat) :
    purchaseStep3 w f acc b u now uid = none ∨
    (∃ cash bonus, purchaseStep3 w f acc b u now uid = some (cash, bonus, w, [])) ∨
    (∃ cash bonus w1 req, purchaseStep3 w f acc b u now uid =
        some (cash, bonus, w1, [SagaEvent.ledgerAppend u req]) ∧
      ∃ e, w1.ledger = w.ledger ++ [e]) := by
  cases b
  · unfold purchaseStep3
    rcases hadd : bonusAddTransaction w u
        ⟨acc.id, uid, now, Int.fdiv f.price 10, "FILL_IN_BALANCE"⟩ with _ | w1
    · left; simp [hadd]
    · right; right
      exact ⟨f.price, 0, w1, ⟨acc.id, uid, now, Int.fdiv f.price 10, "FILL_IN_BALANCE"⟩,
        by simp [hadd], bonusAddTransaction_ledger _ _ _ _ hadd⟩
  · unfold purchaseStep3
    by_cases hb : 0 < min acc.balance f.price
    · rcases hadd : bonusAddTransaction w u
          ⟨acc.id, uid, now, min acc.balance f.price, "DEBIT_THE_ACCOUNT"⟩ with _ | w1
      · left; simp [hadd, hb]
      · right; right
        exact ⟨f.price - min acc.balance f.price, min acc.balance f.price, w1,
          ⟨acc.id, uid, now, min acc.balance f.price, "DEBIT_THE_ACCOUNT"⟩,
          by simp [hadd, hb], bonusAddTransaction_ledger _ _ _ _ hadd⟩
    · right; left
      exact ⟨f.price - min acc.balance f.price, min acc.balance f.price, by simp [hb]⟩

/-- C4: in every purchase execution whose trace contains a ledger append and a
ticket write, the append comes strictly first; and in every execution where the
ticket write fails after a ledger append succeeded (a downstream error with an
append on the trace), no compensating ledger delete is performed and the ledger
keeps its new entry (the old entries plus a nonempty suffix). -/
theorem C4_ledger_write_precedes_ticket_write (w : World) (fn : String) (rp : Int)
    (b : Bool) (u : String) (now uid : Nat) :
    (∀ i j,
      firstIdxOf isLedgerAppendEv (purchase_ticket w fn rp b u now uid).2.2 = some i →
      firstIdxOf isTicketCreateEv (purchase_ticket w fn rp b u now uid).2.2 = some j →
      i < j) ∧
    (∀ st, (purchase_ticket w fn rp b u now uid).1 = PurchaseOutcome.downstreamError st →
      (purchase_ticket w fn rp b u now uid).2.2.any isLedgerAppendEv = true →
      ((purchase_ticket w fn rp b u now uid).2.2.all (fun e => !isLedgerDeleteEv e) = true ∧
        ∃ rest, (purchase_ticket w fn rp b u now uid).2.1.ledger = w.ledger ++ rest ∧
          rest ≠ [])) := by
  rcases hf : flightsLookup w fn with _ | f
  · constructor
    · intro i j hi hj
      simp [purchase_ticket, hf, firstIdxOf] at hi
    · intro st h1 h2
      simp [purchase_ticket, hf] at h2
  · rcases ha : privilegeLookup w u with _ | acc
    · constructor
      · intro i j hi hj
        simp [purchase_ticket, hf, ha, firstIdxOf] at hi
      · intro st h1 h2
        simp [purchase_ticket, hf, ha] at h2
    · rcases purchaseStep3_shape w f acc b u now uid with hstep | ⟨cash, bonus, hstep⟩ |
        ⟨cash, bonus, w1, req, hstep, e, hledger⟩
      · constructor
        · intro i j hi hj
          simp [purchase_ticket, hf, ha, hstep, firstIdxOf] at hi
        · intro st h1 h2
          simp [purchase_ticket, hf, ha, hstep] at h2
      · rcases hc : tickets_create w.tickets uid u f.flightNumber cash with ⟨st0, store1⟩
        constructor
        · intro i j hi hj
          rcases st0 with _ | status <;>
            simp [purchase_ticket, hf, ha, hstep, hc, firstIdxOf, isLedgerAppendEv] at hi
        · intro st h1 h2
          rcases st0 with _ | status <;>
            simp [purchase_ticket, hf, ha, hstep, hc, isLedgerAppendEv] at h2
      · rcases hre : privilegeLookup w1 u with _ | acc2
        · constructor
          · intro i j hi hj
            simp [purchase_ticket, hf, ha, hstep, hre, firstIdxOf, isLedgerAppendEv,
              isTicketCreateEv] at hi hj
          · intro st h1 h2
            simp [purchase_ticket, hf, ha, hstep, hre] at h1
        · rcases hc : tickets_create w1.tickets uid u f.flightNumber cash with ⟨st0, store1⟩
          constructor
          · intro i j hi hj
            rcases st0 with _ | status <;>
              simp [purchase_ticket, hf, ha, hstep, hre, hc, firstIdxOf, isLedgerAppendEv,
                isTicketCreateEv] at hi hj <;>
              omega
          · intro st h1 h2
            rcases st0 with _ | status
            · simp [purchase_ticket, hf, ha, hstep, hre, hc] at h1
            · refine ⟨?_, ⟨[e], ?_, by simp⟩⟩
              · simp [purchase_ticket, hf, ha, hstep, hre, hc, isLedgerDeleteEv]
              · simp [purchase_ticket, hf, ha, hstep, hre, hc, hledger]

/-- Witness for C4: with ticket uid 77 already taken, the purchase appends the
ledger entry (index 0), then fails the ticket write (index 2) with status 403,
leaving the appended entry in place with no compensating delete. -/
theorem C4_ledger_write_precedes_ticket_write_witness :
    ((0 : Nat) < 2) ∧
    ((purchase_ticket ⟨[⟨"AFL031", "SVO", "LED", 100, 1500⟩],
        [⟨1, 77, "bob", "AFL031", 1500, "PAID"⟩], [⟨1, "alice", "GOLD", 500⟩], []⟩
        "AFL031" 0 false "alice" 10 77).2.2.all (fun e => !isLedgerDeleteEv e) = true ∧
      ∃ rest, (purchase_ticket ⟨[⟨"AFL031", "SVO", "LED", 100, 1500⟩],
        [⟨1, 77, "bob", "AFL031", 1500, "PAID"⟩], [⟨1, "alice", "GOLD", 500⟩], []⟩
        "AFL031" 0 false "alice" 10 77).2.1.ledger =
          ([] : List PrivilegeHistory) ++ rest ∧ rest ≠ []) :=
  ⟨(C4_ledger_write_precedes_ticket_write
      ⟨[⟨"AFL031", "SVO", "LED", 100, 1500⟩], [⟨1, 77, "bob", "AFL031", 1500, "PAID"⟩],
        [⟨1, "alice", "GOLD", 500⟩], []⟩ "AFL031" 0 false "alice" 10 77).1 0 2
      (by decide) (by decide),
    (C4_ledger_write_precedes_ticket_write
      ⟨[⟨"AFL031", "SVO", "LED", 100, 1500⟩], [⟨1, 77, "bob", "AFL031", 1500, "PAID"⟩],
        [⟨1, "alice", "GOLD", 500⟩], []⟩ "AFL031" 0 false "alice" 10 77).2 403
      (by decide) (by decide)⟩

/-- Predicates that agree on the members of a list find the same element. -/
theorem find?_congr_mem {α : Type} (l : List α) (p q : α → Bool)
    (h : ∀ a ∈ l, p a = q a) : l.find? p = l.find? q := by
  induction l with
  | nil => rfl
  | cons a l ih =>
    have ha := h a (by simp)
    by_cases hpa : p a = true
    · rw [List.find?_cons_of_pos l hpa, List.find?_cons_of_pos l (ha ▸ hpa)]
    · rw [List.find?_cons_of_neg l hpa, List.find?_cons_of_neg l (ha ▸ hpa)]
      exact ih fun x hx => h x (by simp [hx])

/-- Predicates that agree on the members of a list erase the same element. -/
theorem eraseP_congr_mem {α : Type} (l : List α) (p q : α → Bool)
    (h : ∀ a ∈ l, p a = q a) : l.eraseP p = l.eraseP q := by
  induction l with
  | nil => rfl
  | cons a l ih =>
    have ha := h a (by simp)
    by_cases hpa : p a = true
    · rw [List.eraseP_cons_of_pos hpa, List.eraseP_cons_of_pos (ha ▸ hpa)]
    · rw [List.eraseP_cons_of_neg hpa, List.eraseP_cons_of_neg (ha ▸ hpa)]
      rw [ih fun x hx => h x (by simp [hx])]

/-- When at most one member matches, erasing the first match is filtering all
matches out. -/
theorem eraseP_eq_filter_not {α : Type} (l : List α) (p : α → Bool)
    (h : l.countP p ≤ 1) : l.eraseP p = l.filter (fun a => !p a) := by
  induction l with
  | nil => rfl
  | cons a l ih =>
    by_cases hpa : p a = true
    · rw [List.eraseP_cons_of_pos hpa]
      rw [List.countP_cons_of_pos _ l hpa] at h
      have hzero : l.countP p = 0 := by omega
      have hall := List.countP_eq_zero.mp hzero
      have hf : l.filter (fun a => !p a) = l :=
        List.filter_eq_self.mpr (fun x hx => by simp [hall x hx])
      simp [List.filter_cons, hpa, hf]
    · rw [List.eraseP_cons_of_neg hpa]
      rw [List.countP_cons_of_neg _ l hpa] at h
      simp [List.filter_cons, hpa, ih h]

/-- Filtering the matches out leaves nothing for find? to find. -/
theorem find?_filter_not_self {α : Type} (l : List α) (p : α → Bool) :
    (l.filter (fun a => !p a)).find? p = none := by
  induction l with
  | nil => rfl
  | cons a l ih =>
    by_cases hpa : p a = true
    · simp [List.filter_cons, hpa, ih]
    · simp [List.filter_cons, hpa, ih]

/-- Outcome of the cancel endpoint: 204 no content, or the 404/403/400 error
bodies of gateway/main.py, or a downstream HTTPError propagated out of the
handler. -/
inductive CancelOutcome where
  | noContent
  | notFound (message : String)
  | forbidden (message : String)
  | badRequest (message : String)
  | downstreamError (status : Nat)
deriving DecidableEq, Repr

/-- Gateway cancel saga (gateway/main.py cancel_ticket, lines 255-273) over the
World, reads taken under closed breakers: resolve the ticket (404 when absent),
check ownership (403) and PAID status (400), look up the ledger entry tied to
the caller and the uid, delete it when present, then delete the ticket row. -/
def cancel_ticket (w : World) (ticket_uid : Nat) (username : String) :
    CancelOutcome × World × List SagaEvent :=
  match ticketsGetByUid w ticket_uid with
  | none => (CancelOutcome.notFound "Ticket does not exist", w, [])
  | some ticket_info =>
    if ticket_info.username ≠ username then
      (CancelOutcome.forbidden "Ticket does not belong to user", w, [])
    else if ticket_info.status ≠ "PAID" then
      (CancelOutcome.badRequest "Ticket cannot be cancelled", w, [])
    else
      match bonusGetTransaction w username ticket_uid with
      | some _ =>
        match bonusDeleteTransaction w username ticket_uid with
        | none => (CancelOutcome.downstreamError 404, w, [])
        | some w1 =>
          match tickets_remove w1.tickets ticket_uid with
          | (some status, store1) =>
            (CancelOutcome.downstreamError status, { w1 with tickets := store1 },
              [SagaEvent.ledgerDelete username ticket_uid, SagaEvent.ticketDelete ticket_uid])
          | (none, store1) =>
            (CancelOutcome.noContent, { w1 with tickets := store1 },
              [SagaEvent.ledgerDelete username ticket_uid, SagaEvent.ticketDelete ticket_uid])
      | none =>
        match tickets_remove w.tickets ticket_uid with
        | (some status, store1) =>
          (CancelOutcome.downstreamError status, { w with tickets := store1 },
            [SagaEvent.ticketDelete ticket_uid])
        | (none, store1) =>
          (CancelOutcome.noContent, { w with tickets := store1 },
            [SagaEvent.ticketDelete ticket_uid])

/-- Cancelling a uid absent from the tickets store fails with the
ticket-not-found error. -/
theorem cancel_ticket_absent (w2 : World) (uid : Nat) (u : String)
    (h : ticketsGetByUid w2 uid = none) :
    (cancel_ticket w2 uid u).1 = CancelOutcome.notFound "Ticket does not exist" := by
  simp [cancel_ticket, h]

/-- C5: cancelling a PAID ticket owned by the caller succeeds, removes exactly
the ledger entries whose ticket identifier matches the cancelled ticket (the one
entry when it exists, nothing otherwise), deletes the ticket record, and a
second cancel of the same identifier fails with the ticket-not-found error. The
hypotheses state the store invariants of reachable states: the uid names at most
one ticket and at most one ledger entry, the caller has an account, and entries
tagged with the uid belong to that account. -/
theorem C5_cancel_saga (w : World) (uid : Nat) (u : String) (t : Ticket) (acc : Privilege)
    (ht : ticketsGetByUid w uid = some t)
    (hu : t.username = u)
    (hs : t.status = "PAID")
    (htc : w.tickets.countP (fun t2 => t2.ticket_uid == uid) ≤ 1)
    (ha : privilegeLookup w u = some acc)
    (hcons : ∀ e ∈ w.ledger, e.ticket_uid = uid → e.privilege_id = acc.id)
    (hlc : w.ledger.countP (fun e => e.ticket_uid == uid) ≤ 1) :
    (cancel_ticket w uid u).1 = CancelOutcome.noContent ∧
    (cancel_ticket w uid u).2.1.ledger =
      w.ledger.filter (fun e => !(e.ticket_uid == uid)) ∧
    (cancel_ticket w uid u).2.1.tickets =
      w.tickets.filter (fun t2 => !(t2.ticket_uid == uid)) ∧
    (cancel_ticket (cancel_ticket w uid u).2.1 uid u).1 =
      CancelOutcome.notFound "Ticket does not exist" := by
  have htf : w.tickets.find? (fun t2 => t2.ticket_uid == uid) = some t := ht
  have hrem : tickets_remove w.tickets uid =
      (none, w.tickets.eraseP (fun t2 => t2.ticket_uid == uid)) := by
    simp [tickets_remove, htf]
  have herase : w.tickets.eraseP (fun t2 => t2.ticket_uid == uid) =
      w.tickets.filter (fun t2 => !(t2.ticket_uid == uid)) :=
    eraseP_eq_filter_not _ _ htc
  have hpp : ∀ e ∈ w.ledger,
      (e.privilege_id == acc.id && e.ticket_uid == uid) = (e.ticket_uid == uid) := by
    intro e he
    by_cases hb : (e.ticket_uid == uid) = true
    · have hm : e.ticket_uid = uid := by simpa using hb
      have hpid : e.privilege_id = acc.id := hcons e he hm
      rw [hb]
      simp [hpid, hb]
    · have hb2 : (e.ticket_uid == uid) = false := by
        simpa using hb
      rw [hb2]
      simp [hb2]
  have hfind : w.ledger.find? (fun e => e.privilege_id == acc.id && e.ticket_uid == uid) =
      w.ledger.find? (fun e => e.ticket_uid == uid) :=
    find?_congr_mem _ _ _ hpp
  have main : (cancel_ticket w uid u).1 = CancelOutcome.noContent ∧
      (cancel_ticket w uid u).2.1.ledger =
        w.ledger.filter (fun e => !(e.ticket_uid == uid)) ∧
      (cancel_ticket w uid u).2.1.tickets =
        w.tickets.filter (fun t2 => !(t2.ticket_uid == uid)) := by
    rcases hcaseL : w.ledger.find? (fun e => e.ticket_uid == uid) with _ | e0
    · have hbgt : bonusGetTransaction w u uid = none := by
        simp [bonusGetTransaction, ha, hfind, hcaseL]
      have hnomatch := List.find?_eq_none.mp hcaseL
      have hfid : w.ledger.filter (fun e => !(e.ticket_uid == uid)) = w.ledger :=
        List.filter_eq_self.mpr (fun x hx => by simp [hnomatch x hx])
      refine ⟨?_, ?_, ?_⟩ <;>
        simp [cancel_ticket, ht, hu, hs, hbgt, hrem, herase, hfid]
    · have hbgt : bonusGetTransaction w u uid = some e0 := by
        simp [bonusGetTransaction, ha, hfind, hcaseL]
      have hfind2 : w.ledger.find?
          (fun e => e.privilege_id == acc.id && e.ticket_uid == uid) = some e0 := by
        rw [hfind, hcaseL]
      have hbdel : bonusDeleteTransaction w u uid = some
          { w with
              ledger := w.ledger.eraseP
                (fun e => e.privilege_id == acc.id && e.ticket_uid == uid),
              privileges := w.privileges.map (fun p =>
                if p.id == acc.id then
                  { p with balance := reverseDiff p.balance e0.operation_type e0.balance_diff }
                else p) } := by
        simp [bonusDeleteTransaction, ha, hfind2]
      have heraseL : w.ledger.eraseP
          (fun e => e.privilege_id == acc.id && e.ticket_uid == uid) =
          w.ledger.filter (fun e => !(e.ticket_uid == uid)) := by
        rw [eraseP_congr_mem _ _ _ hpp]
        exact eraseP_eq_filter_not _ _ hlc
      refine ⟨?_, ?_, ?_⟩ <;>
        simp [cancel_ticket, ht, hu, hs, hbgt, hbdel, hrem, herase, heraseL]
  refine ⟨main.1, main.2.1, main.2.2, ?_⟩
  have hnone2 : ticketsGetByUid (cancel_ticket w uid u).2.1 uid = none := by
    show ((cancel_ticket w uid u).2.1.tickets).find? (fun t2 => t2.ticket_uid == uid) = none
    rw [main.2.2]
    exact find?_filter_not_self _ _
  exact cancel_ticket_absent _ _ _ hnone2

/-- Witness for C5: cancelling the PAID ticket 77 of alice removes the single
matching ledger entry and the ticket, and the immediate second cancel reports
that the ticket does not exist. -/
theorem C5_cancel_saga_witness :
    (cancel_ticket ⟨[], [⟨1, 77, "alice", "AFL031", 1350, "PAID"⟩],
        [⟨1, "alice", "GOLD", 350⟩], [⟨1, 1, 77, 10, 150, "FILL_IN_BALANCE"⟩]⟩
        77 "alice").1 = CancelOutcome.noContent ∧
    (cancel_ticket ⟨[], [⟨1, 77, "alice", "AFL031", 1350, "PAID"⟩],
        [⟨1, "alice", "GOLD", 350⟩], [⟨1, 1, 77, 10, 150, "FILL_IN_BALANCE"⟩]⟩
        77 "alice").2.1.ledger =
      List.filter (fun e => !(e.ticket_uid == 77))
        [⟨1, 1, 77, 10, 150, "FILL_IN_BALANCE"⟩] ∧
    (cancel_ticket ⟨[], [⟨1, 77, "alice", "AFL031", 1350, "PAID"⟩],
        [⟨1, "alice", "GOLD", 350⟩], [⟨1, 1, 77, 10, 150, "FILL_IN_BALANCE"⟩]⟩
        77 "alice").2.1.tickets =
      List.filter (fun t2 => !(t2.ticket_uid == 77))
        [⟨1, 77, "alice", "AFL031", 1350, "PAID"⟩] ∧
    (cancel_ticket
      (cancel_ticket ⟨[], [⟨1, 77, "alice", "AFL031", 1350, "PAID"⟩],
        [⟨1, "alice", "GOLD", 350⟩], [⟨1, 1, 77, 10, 150, "FILL_IN_BALANCE"⟩]⟩
        77 "alice").2.1 77 "alice").1 =
      CancelOutcome.notFound "Ticket does not exist" :=
  C5_cancel_saga ⟨[], [⟨1, 77, "alice", "AFL031", 1350, "PAID"⟩],
      [⟨1, "alice", "GOLD", 350⟩], [⟨1, 1, 77, 10, 150, "FILL_IN_BALANCE"⟩]⟩
    77 "alice" ⟨1, 77, "alice", "AFL031", 1350, "PAID"⟩ ⟨1, "alice", "GOLD", 350⟩
    (by decide) (by decide) (by decide) (by decide) (by decide) (by decide) (by decide)

/-- Aggregated profile response (common.py, class UserInfoResponse); the
privilege field is declared with type PrivilegeShortInfo. -/
structure UserInfoResponse where
  tickets : List TicketResponse
  privilege : PrivilegeShortInfo
deriving DecidableEq, Repr

/-- Value the gateway hands to the privilege field of UserInfoResponse: either a
proper PrivilegeShortInfo, or the plain empty string the degraded branch of the
/me handler passes (gateway/main.py line 126). -/
inductive PrivilegeFieldValue where
  | emptyText
  | short (p : PrivilegeShortInfo)
deriving DecidableEq, Repr

/-- Validation pydantic performs when UserInfoResponse is constructed: the
privilege field is declared PrivilegeShortInfo (common.py), so a plain string,
carrying neither a balance nor a status attribute, is rejected with a
ValidationError (none); a PrivilegeShortInfo value is accepted. -/
def validateUserInfoResponse (tickets : List TicketResponse)
    (privilege : PrivilegeFieldValue) : Option UserInfoResponse :=
  match privilege with
  | PrivilegeFieldValue.emptyText => none
  | PrivilegeFieldValue.short p => some ⟨tickets, p⟩

/-- Outcome of a breaker-guarded client call as the /me handler observes it:
the returned value, or the CircuitOpenException the breaker raised. -/
inductive GuardedCall (α : Type) where
  | value (a : α)
  | circuitOpenRaised
deriving DecidableEq, Repr

/-- Outcome of the /me endpoint: the profile, the 404 account-not-found error,
or the unhandled ValidationError raised while constructing the response (a 500
to the client). -/
inductive MeOutcome where
  | ok (resp : UserInfoResponse)
  | notFound (message : String)
  | validationCrash
deriving DecidableEq, Repr

/-- Gateway /me handler (gateway/main.py get_current_user_profile, lines
106-134). The privilege lookup is tried first: a CircuitOpenException leaves
user_privilege as None, an account-less 200 path returns the 404 body. The
ticket fetch (lookup plus per-ticket formatting) is tried next, a
CircuitOpenException yielding the empty list. If user_privilege is None the
handler builds UserInfoResponse with the empty string as the privilege field;
otherwise it builds it from the account. Construction is pydantic-validated. -/
def get_current_user_profile (privCall : GuardedCall (Option Privilege))
    (ticketsCall : GuardedCall (List TicketResponse)) : MeOutcome :=
  match privCall with
  | GuardedCall.value none => MeOutcome.notFound "User account not found"
  | GuardedCall.value (some user_privilege) =>
    let formatted_tickets :=
      match ticketsCall with
      | GuardedCall.value ts => ts
      | GuardedCall.circuitOpenRaised => []
    match validateUserInfoResponse formatted_tickets
        (PrivilegeFieldValue.short ⟨user_privilege.balance, user_privilege.status⟩) with
    | none => MeOutcome.validationCrash
    | some resp => MeOutcome.ok resp
  | GuardedCall.circuitOpenRaised =>
    let formatted_tickets :=
      match ticketsCall with
      | GuardedCall.value ts => ts
      | GuardedCall.circuitOpenRaised => []
    match validateUserInfoResponse formatted_tickets PrivilegeFieldValue.emptyText with
    | none => MeOutcome.validationCrash
    | some resp => MeOutcome.ok resp

/-- C8 evidence: with the loyalty breaker open the /me handler does not return
a degraded profile; it reaches UserInfoResponse construction with the empty
string in the PrivilegeShortInfo-typed privilege field, whose validation fails,
so the request errors (whatever the ticket call returned). With the account
available and the ticket breaker open, the empty ticket list half of the claim
does hold. -/
theorem C8_me_loyalty_open_crashes (ts : List TicketResponse) (p : Privilege) :
    get_current_user_profile GuardedCall.circuitOpenRaised (GuardedCall.value ts) =
      MeOutcome.validationCrash ∧
    get_current_user_profile GuardedCall.circuitOpenRaised GuardedCall.circuitOpenRaised =
      MeOutcome.validationCrash ∧
    get_current_user_profile (GuardedCall.value (some p)) GuardedCall.circuitOpenRaised =
      MeOutcome.ok ⟨[], ⟨p.balance, p.status⟩⟩ :=
  ⟨rfl, rfl, rfl⟩

/-- Methods the PrivilegesService class defines (services.py lines 112-155). -/
def privilegesServiceMethodNames : List String :=
  ["health_check", "get_user_privilege", "get_user_privilege_history",
    "get_user_privilege_transaction", "add_privilege_transaction", "revert_transaction"]

/-- Python exceptions the retrying cancel path can meet: the AttributeError of
a missing attribute, or the CircuitOpenException of an open breaker. -/
inductive PyException where
  | attributeError (attr : String)
  | circuitOpenRaised (service : String)
deriving DecidableEq, Repr

/-- Python attribute access on the privilege_client object: the attribute
resolves when PrivilegesService defines a method of that name, and raises
AttributeError otherwise. -/
def privilegeClientGetAttr (attr : String) : Except PyException String :=
  if privilegesServiceMethodNames.contains attr then Except.ok attr
  else Except.error (PyException.attributeError attr)

/-- Gateway cancel_with_retry (gateway/main.py lines 239-252) with the wall
clock modelled by fuel, the number of whole polling intervals left before the
deadline (max_seconds / interval = 10 by default). Each iteration evaluates
privilege_client.get_user_privelge_transaction — an attribute access modelled
by name against the methods services.py defines — and on success would consult
lookupBehavior (what the ledger-entry lookup returns at that step); a truthy
entry leads to privilege_client.rollback_transaction and the loop breaks; a
CircuitOpenException is caught and the loops sleeps one interval; any other
exception propagates. Returns whether the compensating delete was performed. -/
def cancel_with_retry (lookupBehavior : Nat → Except PyException (Option PrivilegeHistory))
    (step : Nat) : Nat → Except PyException Bool
  | 0 => Except.ok false
  | fuel + 1 =>
    match privilegeClientGetAttr "get_user_privelge_transaction" with
    | Except.error e => Except.error e
    | Except.ok _ =>
      match lookupBehavior step with
      | Except.error (PyException.circuitOpenRaised _) =>
        cancel_with_retry lookupBehavior (step + 1) fuel
      | Except.error e => Except.error e
      | Except.ok (some _) =>
        match privilegeClientGetAttr "rollback_transaction" with
        | Except.error e => Except.error e
        | Except.ok _ => Except.ok true
      | Except.ok none => cancel_with_retry lookupBehavior (step + 1) fuel

/-- C9 evidence: the retrying cancel variant never polls at all. The method
name it invokes, get_user_privelge_transaction, is not among the methods
PrivilegesService defines (the lookup is named get_user_privilege_transaction),
so the very first iteration raises AttributeError — which the except clause for
CircuitOpenException does not catch — for every lookup behavior and every
positive time budget, instead of tolerating CircuitOpenFault and performing the
compensating delete. -/
theorem C9_retry_raises_attribute_error
    (lookupBehavior : Nat → Except PyException (Option PrivilegeHistory))
    (step fuel : Nat) :
    (privilegesServiceMethodNames.contains "get_user_privelge_transaction" = false ∧
      privilegesServiceMethodNames.contains "get_user_privilege_transaction" = true) ∧
    (0 < fuel → cancel_with_retry lookupBehavior step fuel =
      Except.error (PyException.attributeError "get_user_privelge_transaction")) := by
  refine ⟨⟨by decide, by decide⟩, ?_⟩
  intro hfuel
  rcases fuel with _ | f
  · exact absurd hfuel (by simp)
  · rfl

/-- Witness for C9: with ten intervals of budget and a ledger lookup that would
answer none, the retry loop still fails immediately with the AttributeError. -/
theorem C9_retry_raises_attribute_error_witness :
    cancel_with_retry (fun _ => Except.ok none) 0 10 =
      Except.error (PyException.attributeError "get_user_privelge_transaction") :=
  (C9_retry_raises_attribute_error (fun _ => Except.ok none) 0 10).2 (by decide)

end Rsoi
